import Mathlib

/-!
Shallow embedding of `library/ntc_save_config.py` (the `main` function and the
module-level constants) of the ntc-ansible repository.

The module is a linear script: Ansible validates the argument schema, then
`main` checks the pyntc import flag, builds a kwargs dict from the optional
parameters, constructs and opens a device session, issues one remote save
(with the remote file name when truthy, else no argument), optionally one
local backup, closes the session, and emits the result via `exit_json`.

External collaborators (the pyntc driver and Ansible) are modelled as an
oracle `DeviceBehavior` saying whether each device call raises and what the
save call returns, plus the `hasPyntc` import flag.  The embedding records
the trace of device calls issued and the session-constructor arguments, and
the final outcome (`fail_json`, `exit_json`, or an uncaught exception).
-/

namespace NtcSaveConfig

/-- The module parameters after Ansible schema validation: optional string
parameters are `Option String` (absent = `none`, as in `module.params`),
`port` is `Option Int` (declared `type=int`). -/
structure Params where
  platform : String
  remote_file : Option String
  local_file : Option String
  append_timestamp : Option String
  host : String
  username : String
  password : String
  secret : Option String
  transport : Option String
  port : Option Int
deriving DecidableEq, Repr

/-- A Python keyword-argument value appearing in the `kwargs` dict. -/
inductive KwVal where
  | str (s : String)
  | int (n : Int)
deriving DecidableEq, Repr

/-- The positional and keyword arguments passed to `ntc_device(...)`
(line 182 of the source). -/
structure SessionArgs where
  device_type : String
  host : String
  username : String
  password : String
  kwargs : List (String × KwVal)
deriving DecidableEq, Repr

/-- A device call issued during the run: `device.open()`, `device.save(...)`
(`none` = called with no file argument), `device.backup_running_config(f)`,
`device.close()`. -/
inductive Call where
  | dev_open
  | save (file : Option String)
  | backup (file : String)
  | close
deriving DecidableEq, Repr

/-- The keyword arguments of `module.exit_json(...)` (line 199). -/
structure ModuleResult where
  changed : Bool
  remote_save_successful : Bool
  remote_file : String
  local_file : Option String
deriving DecidableEq, Repr

/-- How the invocation terminates: `module.fail_json(msg)`, `module.exit_json`,
or an exception propagating out of a device call (named by the call site). -/
inductive Outcome where
  | failJson (msg : String)
  | exitJson (r : ModuleResult)
  | raised (site : String)
deriving DecidableEq, Repr

/-- The observable behaviour of one invocation: the terminal outcome, the
trace of device calls issued, and the `ntc_device` constructor arguments
(`none` if the constructor was never reached). -/
structure RunOut where
  outcome : Outcome
  calls : List Call
  session : Option SessionArgs
deriving DecidableEq, Repr

/-- Oracle for the external pyntc driver: whether each call raises, and the
boolean the save call returns when it does not raise. -/
structure DeviceBehavior where
  openRaises : Bool
  saveRaises : Bool
  saveResult : Bool
  backupRaises : Bool
  closeRaises : Bool
deriving DecidableEq, Repr

/-- Python truthiness of an `Option String` parameter: `None` and the empty
string are falsy, every other string truthy. -/
def truthy : Option String → Bool
  | none => false
  | some s => s != ""

/-- The `choices` list of the `platform` argument in the `argument_spec`
(lines 143-144): `[PLATFORM_NXAPI, PLATFORM_IOS, PLATFORM_EAPI]`. -/
def platformChoices : List String := ["cisco_nxos_nxapi", "cisco_ios", "arista_eos_eapi"]

/-- The `platform_to_device_type` dict (lines 134-138). -/
def platform_to_device_type : String → Option String
  | "arista_eos_eapi" => some "eos"
  | "cisco_nxos_nxapi" => some "nxos"
  | "cisco_ios" => some "ios"
  | _ => none

/-- The kwargs dict built at lines 173-179: start empty, add `transport`,
`port`, `secret` in that order, each only when the parameter is not `None`. -/
def buildKwargs (p : Params) : List (String × KwVal) :=
  let kwargs : List (String × KwVal) := []
  let kwargs := match p.transport with
    | some t => kwargs ++ [("transport", KwVal.str t)]
    | none => kwargs
  let kwargs := match p.port with
    | some n => kwargs ++ [("port", KwVal.int n)]
    | none => kwargs
  let kwargs := match p.secret with
    | some s => kwargs ++ [("secret", KwVal.str s)]
    | none => kwargs
  kwargs

/-- The tail of `main` from `device.close()` onward (lines 196-199): issue the
close call; if it raises the exception propagates, otherwise resolve the
reported remote file by Python `or` (falsy means the startup-config
placeholder string) and call `exit_json`. -/
def finish (p : Params) (dev : DeviceBehavior) (session : SessionArgs)
    (callsSoFar : List Call) (changed remote_save_successful : Bool) : RunOut :=
  let calls := callsSoFar ++ [Call.close]
  if dev.closeRaises then
    { outcome := Outcome.raised "close", calls := calls, session := some session }
  else
    let remote_file_out := match p.remote_file with
      | some s => if s != "" then s else "(Startup Config)"
      | none => "(Startup Config)"
    { outcome := Outcome.exitJson
        { changed := changed, remote_save_successful := remote_save_successful,
          remote_file := remote_file_out, local_file := p.local_file },
      calls := calls, session := some session }

/-- The whole invocation, `AnsibleModule` schema validation included:
`main` of `ntc_save_config.py` (lines 140-199).  `hasPyntc` is the
`HAS_PYNTC` flag set by the import at lines 124-128. -/
def run (hasPyntc : Bool) (p : Params) (dev : DeviceBehavior) : RunOut :=
  if platformChoices.contains p.platform = false then
    { outcome := Outcome.failJson "value of platform must be one of the declared choices",
      calls := [], session := none }
  else if hasPyntc = false then
    { outcome := Outcome.failJson "pyntc Python library not found.",
      calls := [], session := none }
  else
    match platform_to_device_type p.platform with
    | none =>
        { outcome := Outcome.raised "platform_to_device_type", calls := [], session := none }
    | some device_type =>
        let session : SessionArgs :=
          { device_type := device_type, host := p.host, username := p.username,
            password := p.password, kwargs := buildKwargs p }
        if dev.openRaises then
          { outcome := Outcome.raised "open", calls := [Call.dev_open], session := some session }
        else
          let saveArg : Option String := if truthy p.remote_file then p.remote_file else none
          if dev.saveRaises then
            { outcome := Outcome.raised "save", calls := [Call.dev_open, Call.save saveArg],
              session := some session }
          else
            let remote_save_successful := dev.saveResult
            let changed := remote_save_successful
            if truthy p.local_file then
              let lf := p.local_file.getD ""
              if dev.backupRaises then
                { outcome := Outcome.raised "backup",
                  calls := [Call.dev_open, Call.save saveArg, Call.backup lf],
                  session := some session }
              else
                finish p dev session [Call.dev_open, Call.save saveArg, Call.backup lf]
                  true remote_save_successful
            else
              finish p dev session [Call.dev_open, Call.save saveArg]
                changed remote_save_successful

/-- The save calls among a trace. -/
def saveCalls (cs : List Call) : List Call :=
  cs.filter (fun c => match c with | Call.save _ => true | _ => false)

/-- Concrete request: IOS platform, a local file, no remote file. -/
def iosBackupParams : Params :=
  { platform := "cisco_ios", remote_file := none, local_file := some "backup.cfg",
    append_timestamp := none, host := "sw1", username := "admin", password := "pw",
    secret := none, transport := none, port := none }

/-- Concrete request: NX-API platform, no remote file, no local file. -/
def nxapiParams : Params :=
  { platform := "cisco_nxos_nxapi", remote_file := none, local_file := none,
    append_timestamp := none, host := "sw2", username := "admin", password := "pw",
    secret := none, transport := none, port := none }

/-- Driver oracle: nothing raises, the remote save reports failure. -/
def failingSaveDev : DeviceBehavior :=
  { openRaises := false, saveRaises := false, saveResult := false,
    backupRaises := false, closeRaises := false }

/-- Driver oracle: nothing raises, the remote save reports success. -/
def okSaveDev : DeviceBehavior :=
  { openRaises := false, saveRaises := false, saveResult := true,
    backupRaises := false, closeRaises := false }

/-- Driver oracle: the remote save raises an exception. -/
def raisingSaveDev : DeviceBehavior :=
  { openRaises := false, saveRaises := true, saveResult := false,
    backupRaises := false, closeRaises := false }

/-- Concrete request with all three optional session parameters supplied. -/
def kwParams : Params :=
  { platform := "cisco_ios", remote_file := none, local_file := none,
    append_timestamp := none, host := "sw3", username := "admin", password := "pw",
    secret := some "s3cret", transport := some "https", port := some 8443 }

/-- Concrete request whose local_file is present but the empty string. -/
def emptyLocalParams : Params :=
  { platform := "cisco_nxos_nxapi", remote_file := none, local_file := some "",
    append_timestamp := none, host := "sw2", username := "admin", password := "pw",
    secret := none, transport := none, port := none }

/-- Helper: a platform accepted by the argument-spec choices list always has a
device-type mapping. -/
theorem contains_platform_lookup (s : String) (h : platformChoices.contains s = true) :
    ∃ dt, platform_to_device_type s = some dt := by
  simp [platformChoices] at h
  rcases h with h | h | h <;> subst h <;> exact ⟨_, rfl⟩

/-- Helper: every `exit_json` result emitted by a run is determined by the save
oracle and the truthiness of the two file parameters. -/
theorem run_exit_characterization (hasPyntc : Bool) (p : Params) (dev : DeviceBehavior)
    (r : ModuleResult) (h : (run hasPyntc p dev).outcome = Outcome.exitJson r) :
    r.changed = (dev.saveResult || truthy p.local_file)
      ∧ r.remote_save_successful = dev.saveResult
      ∧ r.local_file = p.local_file
      ∧ r.remote_file
          = (if truthy p.remote_file then p.remote_file.getD "" else "(Startup Config)") := by
  unfold run finish at h
  repeat' split at h
  all_goals simp_all [truthy]
  all_goals subst h
  all_goals simp_all [truthy]

/-- Claim C1: for every invocation where local_file is non-empty, the reported
changed output is true regardless of the remote save outcome; and in the
concrete scenario platform=cisco_ios, local_file="backup.cfg", failing remote
save, the result has changed=true, remote_save_successful=false,
remote_file="(Startup Config)", local_file="backup.cfg". -/
theorem local_file_forces_changed :
    (∀ (hasPyntc : Bool) (p : Params) (dev : DeviceBehavior) (r : ModuleResult),
        truthy p.local_file = true →
        (run hasPyntc p dev).outcome = Outcome.exitJson r → r.changed = true)
    ∧ (run true iosBackupParams failingSaveDev).outcome
        = Outcome.exitJson
            (ModuleResult.mk true false "(Startup Config)" (some "backup.cfg")) := by
  constructor
  · intro hasPyntc p dev r hlf h
    obtain ⟨h1, -, -, -⟩ := run_exit_characterization hasPyntc p dev r h
    rw [h1, hlf, Bool.or_true]
  · decide

/-- Witness for C1: the universal part applied to the concrete ios scenario. -/
theorem local_file_forces_changed_witness :
    (ModuleResult.mk true false "(Startup Config)" (some "backup.cfg")).changed = true :=
  local_file_forces_changed.1 true iosBackupParams failingSaveDev
    (ModuleResult.mk true false "(Startup Config)" (some "backup.cfg"))
    (by decide) (by decide)

/-- Claim C2: for every invocation where local_file is empty (absent or the
empty string, both falsy) and the remote save reports failure, the reported
changed output is false. -/
theorem falsy_local_failed_save_not_changed (hasPyntc : Bool) (p : Params)
    (dev : DeviceBehavior) (r : ModuleResult) (hlf : truthy p.local_file = false)
    (hsave : dev.saveResult = false)
    (h : (run hasPyntc p dev).outcome = Outcome.exitJson r) : r.changed = false := by
  obtain ⟨h1, -, -, -⟩ := run_exit_characterization hasPyntc p dev r h
  rw [h1, hlf, hsave]
  rfl

/-- Witness for C2: the nxapi request with no local_file and a failing save. -/
theorem falsy_local_failed_save_not_changed_witness :
    (ModuleResult.mk false false "(Startup Config)" none).changed = false :=
  falsy_local_failed_save_not_changed true nxapiParams failingSaveDev
    (ModuleResult.mk false false "(Startup Config)" none)
    (by decide) (by decide) (by decide)

/-- Claim C3: for every invocation where remote_file is empty, the reported
remote_file equals the literal placeholder "(Startup Config)"; and in the
concrete scenario platform=cisco_nxos_nxapi with no remote_file, no
local_file and a successful remote save, the result is changed=true,
remote_save_successful=true, remote_file="(Startup Config)",
local_file=null. -/
theorem empty_remote_file_placeholder :
    (∀ (hasPyntc : Bool) (p : Params) (dev : DeviceBehavior) (r : ModuleResult),
        truthy p.remote_file = false →
        (run hasPyntc p dev).outcome = Outcome.exitJson r →
        r.remote_file = "(Startup Config)")
    ∧ (run true nxapiParams okSaveDev).outcome
        = Outcome.exitJson (ModuleResult.mk true true "(Startup Config)" none) := by
  constructor
  · intro hasPyntc p dev r hrf h
    obtain ⟨-, -, -, h4⟩ := run_exit_characterization hasPyntc p dev r h
    simp [h4, hrf]
  · decide

/-- Witness for C3: the universal part applied to the concrete nxapi scenario. -/
theorem empty_remote_file_placeholder_witness :
    (ModuleResult.mk true true "(Startup Config)" none).remote_file = "(Startup Config)" :=
  empty_remote_file_placeholder.1 true nxapiParams okSaveDev
    (ModuleResult.mk true true "(Startup Config)" none)
    (by decide) (by decide)

/-- Claim C8: for every invocation that emits a result, the changed output
equals the disjunction of the remote_save_successful output and the
truthiness of the local_file parameter. -/
theorem changed_is_disjunction (hasPyntc : Bool) (p : Params) (dev : DeviceBehavior)
    (r : ModuleResult) (h : (run hasPyntc p dev).outcome = Outcome.exitJson r) :
    r.changed = (r.remote_save_successful || truthy p.local_file) := by
  obtain ⟨h1, h2, -, -⟩ := run_exit_characterization hasPyntc p dev r h
  rw [h1, h2]

/-- Witness for C8: the ios scenario, where the save fails but the local_file
is truthy. -/
theorem changed_is_disjunction_witness :
    (ModuleResult.mk true false "(Startup Config)" (some "backup.cfg")).changed
      = ((ModuleResult.mk true false "(Startup Config)" (some "backup.cfg")).remote_save_successful
          || truthy iosBackupParams.local_file) :=
  changed_is_disjunction true iosBackupParams failingSaveDev
    (ModuleResult.mk true false "(Startup Config)" (some "backup.cfg")) (by decide)

/-- Helper: whenever the dependency is present, the platform is accepted and
the open call does not raise, the trace holds exactly one save call, whose
argument is the remote file name when truthy and nothing otherwise. -/
theorem run_saveCalls (p : Params) (dev : DeviceBehavior)
    (hplat : platformChoices.contains p.platform = true) (hopen : dev.openRaises = false) :
    saveCalls (run true p dev).calls
      = [Call.save (if truthy p.remote_file then p.remote_file else none)] := by
  obtain ⟨dt, hdt⟩ := contains_platform_lookup p.platform hplat
  unfold run finish
  repeat' split
  all_goals simp_all [saveCalls]

/-- Claim C4: at most one save call is ever issued, and whenever the run
reaches the device (dependency present, platform accepted, open returns),
exactly one save call is issued, with the remote file name as argument when
one is given and with no file argument otherwise. -/
theorem single_save_call :
    (∀ (hasPyntc : Bool) (p : Params) (dev : DeviceBehavior),
        (saveCalls (run hasPyntc p dev).calls).length ≤ 1)
    ∧ (∀ (p : Params) (dev : DeviceBehavior),
        platformChoices.contains p.platform = true → dev.openRaises = false →
        (truthy p.remote_file = true →
            saveCalls (run true p dev).calls = [Call.save p.remote_file])
          ∧ (truthy p.remote_file = false →
              saveCalls (run true p dev).calls = [Call.save none])) := by
  constructor
  · intro hasPyntc p dev
    unfold run finish
    repeat' split
    all_goals simp [saveCalls]
  · intro p dev hplat hopen
    constructor <;> intro hrf <;> rw [run_saveCalls p dev hplat hopen, hrf] <;> simp

/-- Witness for C4: the ios scenario issues exactly the no-argument save. -/
theorem single_save_call_witness :
    saveCalls (run true iosBackupParams failingSaveDev).calls = [Call.save none] :=
  (single_save_call.2 iosBackupParams failingSaveDev (by decide) (by decide)).2 (by decide)

/-- Counterexample to claim C6 as stated: with a remote save that raises, the
session is opened (the open call was issued and returned) but the close call
is never issued — the source has no try/finally around the save. -/
theorem close_skipped_on_raising_save :
    Call.dev_open ∈ (run true iosBackupParams raisingSaveDev).calls
      ∧ Call.close ∉ (run true iosBackupParams raisingSaveDev).calls := by decide

/-- Claim C6 (amended): for every invocation that opens a device session, if
the remote save returns (whether reporting success or failure) and any
requested local backup returns, the close call is issued; a raising save or
backup instead propagates past the close. -/
theorem close_called_when_no_raise (hasPyntc : Bool) (p : Params) (dev : DeviceBehavior)
    (hplat : platformChoices.contains p.platform = true) (hpy : hasPyntc = true)
    (hopen : dev.openRaises = false) (hsave : dev.saveRaises = false)
    (hbackup : truthy p.local_file = true → dev.backupRaises = false) :
    Call.close ∈ (run hasPyntc p dev).calls := by
  subst hpy
  obtain ⟨dt, hdt⟩ := contains_platform_lookup p.platform hplat
  unfold run finish
  repeat' split
  all_goals simp_all

/-- Witness for C6 (amended): the ios scenario with a failing (but returning)
save still issues the close call. -/
theorem close_called_when_no_raise_witness :
    Call.close ∈ (run true iosBackupParams failingSaveDev).calls :=
  close_called_when_no_raise true iosBackupParams failingSaveDev
    (by decide) rfl (by decide) (by decide) (by decide)

/-- Claim C7: when the pyntc import failed, the invocation ends in fail_json
before any device contact: no session constructed, no device call issued. -/
theorem missing_pyntc_fatal (p : Params) (dev : DeviceBehavior) :
    (∃ msg, (run false p dev).outcome = Outcome.failJson msg)
      ∧ (run false p dev).calls = [] ∧ (run false p dev).session = none := by
  unfold run
  repeat' split
  all_goals simp_all

/-- Claim C9: append_timestamp is accepted by the argument spec but never
read: two invocations differing only in its value behave identically. -/
theorem append_timestamp_no_effect (hasPyntc : Bool) (p : Params) (dev : DeviceBehavior)
    (v w : Option String) :
    run hasPyntc { p with append_timestamp := v } dev
      = run hasPyntc { p with append_timestamp := w } dev := by
  cases p
  rfl

/-- Helper: a falsy local_file (absent or empty string) never triggers a
backup call. -/
theorem no_backup_when_falsy (hasPyntc : Bool) (p : Params) (dev : DeviceBehavior)
    (hlf : truthy p.local_file = false) (f : String) :
    Call.backup f ∉ (run hasPyntc p dev).calls := by
  unfold run finish
  repeat' split
  all_goals simp_all

/-- Claim C10: a remote_file supplied as the empty string behaves exactly
like an omitted remote_file (the whole observable run is identical), and an
empty-string local_file triggers no backup call and leaves changed equal to
the remote save result. -/
theorem empty_string_params_as_absent :
    (∀ (hasPyntc : Bool) (p : Params) (dev : DeviceBehavior),
        run hasPyntc { p with remote_file := some "" } dev
          = run hasPyntc { p with remote_file := none } dev)
    ∧ (∀ (hasPyntc : Bool) (p : Params) (dev : DeviceBehavior),
        p.local_file = some "" →
        (∀ f, Call.backup f ∉ (run hasPyntc p dev).calls)
          ∧ ∀ r, (run hasPyntc p dev).outcome = Outcome.exitJson r →
              r.changed = r.remote_save_successful) := by
  constructor
  · intro hasPyntc p dev
    cases p
    rfl
  · intro hasPyntc p dev hlf
    have hfalsy : truthy p.local_file = false := by rw [hlf]; decide
    refine ⟨fun f => no_backup_when_falsy hasPyntc p dev hfalsy f, ?_⟩
    intro r h
    obtain ⟨h1, h2, -, -⟩ := run_exit_characterization hasPyntc p dev r h
    rw [h1, h2, hfalsy, Bool.or_false]

/-- Witness for C10: the nxapi request with local_file="" issues no backup
and reports changed equal to the (successful) save result. -/
theorem empty_string_params_as_absent_witness :
    (Call.backup "x" ∉ (run true emptyLocalParams okSaveDev).calls)
      ∧ (ModuleResult.mk true true "(Startup Config)" (some "")).changed
          = (ModuleResult.mk true true "(Startup Config)" (some "")).remote_save_successful :=
  ⟨(empty_string_params_as_absent.2 true emptyLocalParams okSaveDev (by decide)).1 "x",
   (empty_string_params_as_absent.2 true emptyLocalParams okSaveDev (by decide)).2
      (ModuleResult.mk true true "(Startup Config)" (some "")) (by decide)⟩

/-- Claim C5: each of transport, port, secret appears in the constructor
kwargs exactly when the parameter was supplied (and with that value), and
the session constructor always receives the host, the credentials and
exactly this kwargs dict. -/
theorem optional_kwargs_iff :
    (∀ (p : Params) (v : KwVal),
        ("transport", v) ∈ buildKwargs p ↔ ∃ t, p.transport = some t ∧ v = KwVal.str t)
    ∧ (∀ (p : Params) (v : KwVal),
        ("port", v) ∈ buildKwargs p ↔ ∃ n, p.port = some n ∧ v = KwVal.int n)
    ∧ (∀ (p : Params) (v : KwVal),
        ("secret", v) ∈ buildKwargs p ↔ ∃ s, p.secret = some s ∧ v = KwVal.str s)
    ∧ (∀ (hasPyntc : Bool) (p : Params) (dev : DeviceBehavior) (s : SessionArgs),
        (run hasPyntc p dev).session = some s →
        s.host = p.host ∧ s.username = p.username ∧ s.password = p.password
          ∧ s.kwargs = buildKwargs p) := by
  refine ⟨?_, ?_, ?_, ?_⟩
  · intro p v
    rcases p with ⟨plat, rf, lf, ts, host, user, pw, sec, tr, po⟩
    cases tr <;> cases po <;> cases sec <;> simp [buildKwargs]
  · intro p v
    rcases p with ⟨plat, rf, lf, ts, host, user, pw, sec, tr, po⟩
    cases tr <;> cases po <;> cases sec <;> simp [buildKwargs]
  · intro p v
    rcases p with ⟨plat, rf, lf, ts, host, user, pw, sec, tr, po⟩
    cases tr <;> cases po <;> cases sec <;> simp [buildKwargs]
  · intro hasPyntc p dev s h
    unfold run finish at h
    repeat' split at h
    all_goals simp_all
    all_goals subst h
    all_goals simp_all

/-- Witness for C5: with all three optional parameters supplied, each key is
present with its value, and the concrete run forwards exactly this kwargs
dict. -/
theorem optional_kwargs_iff_witness :
    ("transport", KwVal.str "https") ∈ buildKwargs kwParams
      ∧ (SessionArgs.mk "ios" "sw3" "admin" "pw" (buildKwargs kwParams)).kwargs
          = buildKwargs kwParams :=
  ⟨(optional_kwargs_iff.1 kwParams (KwVal.str "https")).mpr ⟨"https", rfl, rfl⟩,
   ((optional_kwargs_iff.2.2.2 true kwParams okSaveDev
      (SessionArgs.mk "ios" "sw3" "admin" "pw" (buildKwargs kwParams)) (by decide))).2.2.2⟩

end NtcSaveConfig
